import Mathlib

/-!
Shallow embedding of `Code/Version1.3/cannon/dataset.py` (TheCannon).

The Python module manages a dataset of stellar spectra: a label table
(`self.data`, a table object with an `id` column plus named numeric
columns and alias resolution), three per-star 2-D arrays
(`lams`, `fluxes`, `ivars`), a list of selected label names
(`label_names`) and an optional cached label matrix (`_label_vals`).
Numeric values are modelled by exact rationals `ℚ`; the population
standard deviation computed by `np.std` is modelled over `ℝ` with
`Real.sqrt`.  2-D numpy arrays are lists of rows; an `id` column is a
list of strings.
-/

set_option autoImplicit false

namespace Cannon

/-- numpy boolean indexing `a[m]` for a boolean mask `m`: keep the
entries of `a` whose mask entry is `true`, in order. -/
def maskSelect {α : Type} : List α → List Bool → List α
  | _, [] => []
  | [], _ => []
  | a :: as, b :: bs => if b then a :: maskSelect as bs else maskSelect as bs

/-- The label table `self.data`: an `id` column of star identifiers,
named numeric columns, and an alias map used by `resolve_alias`. -/
structure Table where
  ids : List String
  cols : List (String × List ℚ)
  aliases : List (String × String)

/-- `self.data.resolve_alias(k)`: translate an alias to its canonical
column name, or return the name unchanged. -/
def Table.resolveAlias (t : Table) (k : String) : String :=
  match t.aliases.lookup k with
  | some v => v
  | none => k

/-- `key in self.data`: membership test over the table's columns. -/
def Table.containsCol (t : Table) (k : String) : Bool :=
  t.cols.any (fun c => c.1 = k)

/-- `self.data[k]`: the numeric column named `k` (empty if absent;
the callers embedded here only read existing columns). -/
def Table.get (t : Table) (k : String) : List ℚ :=
  ((t.cols.find? (fun c => c.1 = k)).map Prod.snd).getD []

/-- `self.data.add_column(name, vals)`. -/
def Table.addColumn (t : Table) (name : String) (vals : List ℚ) : Table :=
  { t with cols := t.cols ++ [(name, vals)] }

/-- `self.data.select('*', indices=m)`: subset every row-aligned part of
the table by the boolean mask. -/
def Table.selectRows (t : Table) (m : List Bool) : Table :=
  { ids := maskSelect t.ids m
    cols := t.cols.map (fun c => (c.1, maskSelect c.2 m))
    aliases := t.aliases }

/-- Number of rows of the label table. -/
def Table.nrows (t : Table) : ℕ :=
  t.ids.length

/-- The `Dataset` class state: label table, selected label names,
wavelengths, fluxes, inverse variances, and the nullable cached label
matrix `self._label_vals`. -/
structure Dataset where
  data : Table
  label_names : List String
  lams : List (List ℚ)
  fluxes : List (List ℚ)
  ivars : List (List ℚ)
  cachedLabelVals : Option (List (List ℚ))

/-- `Dataset.__init__`: append the SNR column to the label table and
reset the cached label matrix (`reset_label_vals`). -/
def Dataset.make (label_vals : Table) (SNRs : List ℚ)
    (lams fluxes ivars : List (List ℚ)) (label_names : List String) :
    Dataset :=
  { data := label_vals.addColumn "SNRs" SNRs
    label_names := label_names
    lams := lams
    fluxes := fluxes
    ivars := ivars
    cachedLabelVals := none }

/-- `Dataset.reset_label_vals`. -/
def Dataset.reset_label_vals (d : Dataset) : Dataset :=
  { d with cachedLabelVals := none }

/-- `Dataset.set_label_vals(vals)`. -/
def Dataset.set_label_vals (d : Dataset) (vals : List (List ℚ)) : Dataset :=
  { d with cachedLabelVals := some vals }

/-- `np.array(cols).T` for a rectangular list of columns: the matrix
whose row `s` collects entry `s` of every column. -/
def np2T (cols : List (List ℚ)) : List (List ℚ) :=
  (List.range (cols.headD []).length).map (fun s => cols.map (fun c => c.getD s 0))

/-- The `label_vals` property: the cached matrix if one was set,
otherwise `np.array([self.data[k] for k in self.label_names]).T`. -/
def Dataset.label_vals (d : Dataset) : List (List ℚ) :=
  match d.cachedLabelVals with
  | some v => v
  | none => np2T (d.label_names.map (fun k => d.data.get k))

/-- Column `j` of a row-major matrix (entries past a row's end read 0). -/
def matCol (M : List (List ℚ)) (j : ℕ) : List ℚ :=
  M.map (fun r => r.getD j 0)

/-- `Dataset.choose_objects(mask)` for a boolean mask: subsets the label
table, `fluxes` and `ivars` by the mask.  The source touches no other
field (in particular it never subsets `lams`). -/
def Dataset.choose_objects (d : Dataset) (m : List Bool) : Dataset :=
  { d with
    data := d.data.selectRows m
    fluxes := maskSelect d.fluxes m
    ivars := maskSelect d.ivars m }

/-- The loop of `Dataset.choose_labels`: walk the requested names,
resolving each; on the first name whose resolution is not a column,
stop with that resolved name as the error payload of the raised
`KeyError`.  Returns the final `label_names` (the list rebuilt so far)
and the error, mirroring that the source first clears `label_names`
and appends resolved names one by one. -/
def chooseLabelsLoop (t : Table) : List String → List String × Option String
  | [] => ([], none)
  | k :: ks =>
    let key := t.resolveAlias k
    if t.containsCol key then
      let r := chooseLabelsLoop t ks
      (key :: r.1, r.2)
    else
      ([], some key)

/-- `Dataset.choose_labels(cols)`: the dataset after the call together
with the raised error's payload, if any. -/
def Dataset.choose_labels (d : Dataset) (cols : List String) :
    Dataset × Option String :=
  let r := chooseLabelsLoop d.data cols
  ({ d with label_names := r.1 }, r.2)

/-! ### Per-label report writing in `dataset_postdiagnostics` -/

/-- The file body written for one label: for each flagged star ID
(numpy boolean indexing `test_IDs[warning]`), one `write` of the ID
followed by a newline, accumulated left to right from an empty file. -/
def fileContent (ids : List String) (w : List Bool) : String :=
  ((maskSelect ids w).map (fun s => s ++ "\x0a")).foldl (fun acc line => acc ++ line) ""

/-- `sum(warning)`: the flagged count the source prints. -/
def flaggedCount (w : List Bool) : ℕ :=
  (w.map (fun b => if b then 1 else 0)).sum

/-- Spec-side definition, following the spec's words: the IDs of
exactly the flagged test stars, in original row order. -/
def specFlaggedIDs (ids : List String) (w : List Bool) : List String :=
  ((ids.zip w).filter (fun p => p.2)).map Prod.fst

/-- The observable per-label output of one iteration of the flagging
loop in `dataset_postdiagnostics`. -/
structure LabelReport where
  filename : String
  content : String
  summaryLabel : String
  summaryCount : ℕ

/-- One iteration of the flagging loop, for label index `i` with
warning mask `w`: filename `"flagged_stars_%s.txt" % i`, the flagged
IDs written one per line, the printed `"Reference label %s" % name`,
and the printed count `sum(warning)`. -/
def postPerLabel (label_names : List String) (test_IDs : List String)
    (w : List Bool) (i : ℕ) : LabelReport :=
  { filename := "flagged_stars_" ++ toString i ++ ".txt"
    content := fileContent test_IDs w
    summaryLabel := "Reference label " ++ label_names.getD i ""
    summaryCount := flaggedCount w }

/-! ### The 1-to-1 comparison section of `dataset_postdiagnostics`

For each label the source takes `orig = reference_labels[:, i]` and
`cannon = test_labels[:, i]`, computes
`low = np.minimum(min(orig), min(cannon))`,
`high = np.maximum(max(orig), max(cannon))` and the residuals
`cannon - orig`.  There is no length check of its own: the residual
subtraction follows numpy semantics — equal lengths subtract
elementwise, a length-1 operand broadcasts, and any other length
mismatch fails with a generic library shape error (modelled as
`none`). -/

/-- `a - b` on numpy arrays, with broadcasting. -/
def npBroadcastSub (a b : List ℚ) : Option (List ℚ) :=
  if a.length = b.length then some (List.zipWith (fun x y => x - y) a b)
  else if b.length = 1 then some (a.map (fun x => x - b.headD 0))
  else if a.length = 1 then some (b.map (fun y => a.headD 0 - y))
  else none

/-- The numeric content of one iteration of the 1-to-1 comparison
loop: `(low, high, cannon - orig)`, or `none` when a library call
fails (empty `min`/`max`, or a residual shape error). -/
def comparisonReport (orig cannon : List ℚ) : Option (ℚ × ℚ × List ℚ) :=
  match npBroadcastSub cannon orig with
  | none => none
  | some resid =>
    match orig.min?, cannon.min?, orig.max?, cannon.max? with
    | some lo1, some lo2, some hi1, some hi2 =>
      some (min lo1 lo2, max hi1 hi2, resid)
    | _, _, _, _ => none

/-! ### Concrete instances used to exercise the defined operations -/

/-- A two-star label table with numeric columns `a` and `b`. -/
def tableEx : Table :=
  { ids := ["s1", "s2"]
    cols := [("a", [1, 2]), ("b", [3, 4])]
    aliases := [] }

/-- A two-star dataset over `tableEx`; each spectral array has two
rows. -/
def dsEx : Dataset :=
  { data := tableEx
    label_names := ["a", "b"]
    lams := [[1], [2]]
    fluxes := [[3], [4]]
    ivars := [[5], [6]]
    cachedLabelVals := none }

/-! ### `dataset_postdiagnostics`: per-label outlier flagging

The source computes, per label column, `mean = np.mean(col)`,
`stdev = np.std(col)` (population standard deviation, `ddof = 0`),
`lower = mean - 2*stdev`, `upper = mean + 2*stdev`, and flags a test
value by `np.logical_or(v < lower, v > upper)`. -/

/-- `np.mean`: arithmetic mean of a column. -/
def npMean (l : List ℚ) : ℚ :=
  l.sum / l.length

/-- The mean of the squared deviations from the mean; `np.std` is its
square root (numpy's default `ddof = 0`). -/
def npVarPop (l : List ℚ) : ℚ :=
  (l.map (fun x => (x - npMean l) ^ 2)).sum / l.length

/-- `np.std(col)` (population standard deviation), as a real number. -/
noncomputable def npStd (l : List ℚ) : ℝ :=
  Real.sqrt ((npVarPop l : ℚ) : ℝ)

/-- `lower = mean - 2 * stdev`. -/
noncomputable def lowerBound (l : List ℚ) : ℝ :=
  ((npMean l : ℚ) : ℝ) - 2 * npStd l

/-- `upper = mean + 2 * stdev`. -/
noncomputable def upperBound (l : List ℚ) : ℝ :=
  ((npMean l : ℚ) : ℝ) + 2 * npStd l

/-- `np.logical_or(v < lower, v > upper)`: the flag the source computes
for one test value `x` against reference column `l`. -/
def warningFlag (l : List ℚ) (x : ℚ) : Prop :=
  ((x : ℚ) : ℝ) < lowerBound l ∨ upperBound l < ((x : ℚ) : ℝ)

/-- Spec-side definition, following the spec's words: the mean of the
reference column, over `ℝ`. -/
noncomputable def specMean (l : List ℚ) : ℝ :=
  (l.map (fun x => ((x : ℚ) : ℝ))).sum / l.length

/-- Spec-side definition, following the spec's words: the population
standard deviation (`ddof = 0`) of the reference column, over `ℝ`. -/
noncomputable def specPopStd (l : List ℚ) : ℝ :=
  Real.sqrt ((l.map (fun x => (((x : ℚ) : ℝ) - specMean l) ^ 2)).sum / l.length)

theorem cast_list_sum (l : List ℚ) :
    ((l.sum : ℚ) : ℝ) = (l.map (fun x => ((x : ℚ) : ℝ))).sum := by
  induction l with
  | nil => simp
  | cons a as ih => simp [ih]

theorem npMean_cast (l : List ℚ) : ((npMean l : ℚ) : ℝ) = specMean l := by
  simp [npMean, specMean, cast_list_sum]

theorem cast_sq_dev_sum (l : List ℚ) :
    (((l.map (fun x => (x - npMean l) ^ 2)).sum : ℚ) : ℝ) =
      (l.map (fun x => (((x : ℚ) : ℝ) - specMean l) ^ 2)).sum := by
  rw [cast_list_sum, List.map_map]
  refine congrArg List.sum (List.map_congr_left fun x _ => ?_)
  simp only [Function.comp_apply]
  rw [← npMean_cast]
  push_cast
  ring

theorem npVarPop_cast (l : List ℚ) :
    ((npVarPop l : ℚ) : ℝ) =
      (l.map (fun x => (((x : ℚ) : ℝ) - specMean l) ^ 2)).sum / l.length := by
  rw [npVarPop, Rat.cast_div, cast_sq_dev_sum]
  norm_cast

theorem npStd_eq_specPopStd (l : List ℚ) : npStd l = specPopStd l := by
  unfold npStd specPopStd
  rw [npVarPop_cast]

/-- C2: a test star is flagged for a label exactly when its value lies
strictly below `mean - 2*std` or strictly above `mean + 2*std`, where
`mean`/`std` are the mean and population standard deviation (ddof = 0)
of the reference column; a value exactly on either bound is never
flagged. -/
theorem c2_flag_iff_two_sigma (l : List ℚ) (x : ℚ) (h : l ≠ []) :
    (warningFlag l x ↔
      ((x : ℚ) : ℝ) < specMean l - 2 * specPopStd l ∨
        specMean l + 2 * specPopStd l < ((x : ℚ) : ℝ)) ∧
    ((((x : ℚ) : ℝ) = specMean l - 2 * specPopStd l ∨
        ((x : ℚ) : ℝ) = specMean l + 2 * specPopStd l) → ¬ warningFlag l x) := by
  have hlo : lowerBound l = specMean l - 2 * specPopStd l := by
    rw [lowerBound, npMean_cast, npStd_eq_specPopStd]
  have hup : upperBound l = specMean l + 2 * specPopStd l := by
    rw [upperBound, npMean_cast, npStd_eq_specPopStd]
  constructor
  · rw [warningFlag, hlo, hup]
  · intro hx hw
    have hs : 0 ≤ specPopStd l := Real.sqrt_nonneg _
    rw [warningFlag, hlo, hup] at hw
    rcases hw with hw | hw <;> rcases hx with hx | hx <;> linarith

theorem c2_flag_iff_two_sigma_witness :
    (([0, 2] : List ℚ) ≠ []) ∧
    ((warningFlag [0, 2] 4 ↔
      ((4 : ℚ) : ℝ) < specMean [0, 2] - 2 * specPopStd [0, 2] ∨
        specMean [0, 2] + 2 * specPopStd [0, 2] < ((4 : ℚ) : ℝ)) ∧
    ((((4 : ℚ) : ℝ) = specMean [0, 2] - 2 * specPopStd [0, 2] ∨
        ((4 : ℚ) : ℝ) = specMean [0, 2] + 2 * specPopStd [0, 2]) →
      ¬ warningFlag [0, 2] 4)) :=
  ⟨by simp, c2_flag_iff_two_sigma [0, 2] 4 (by simp)⟩

/-- C5: when the reference column has zero population standard
deviation, both bounds collapse to the mean, and every test value
different from the mean is flagged. -/
theorem c5_zero_std_flags_all (l : List ℚ) (x : ℚ) (h : l ≠ [])
    (h0 : npVarPop l = 0) :
    lowerBound l = ((npMean l : ℚ) : ℝ) ∧
    upperBound l = ((npMean l : ℚ) : ℝ) ∧
    (x ≠ npMean l → warningFlag l x) := by
  have hs : npStd l = 0 := by
    rw [npStd, h0]
    simp
  refine ⟨?_, ?_, ?_⟩
  · rw [lowerBound, hs]; ring
  · rw [upperBound, hs]; ring
  · intro hx
    have hxr : ((x : ℚ) : ℝ) ≠ ((npMean l : ℚ) : ℝ) := by
      exact_mod_cast hx
    rcases lt_or_gt_of_ne hxr with hlt | hgt
    · left
      rw [lowerBound, hs]
      linarith
    · right
      rw [upperBound, hs]
      linarith

theorem c5_zero_std_flags_all_witness :
    ((([1, 1] : List ℚ) ≠ []) ∧ npVarPop [1, 1] = 0) ∧
    (lowerBound [1, 1] = ((npMean [1, 1] : ℚ) : ℝ) ∧
     upperBound [1, 1] = ((npMean [1, 1] : ℚ) : ℝ) ∧
     ((2 : ℚ) ≠ npMean [1, 1] → warningFlag [1, 1] 2)) :=
  ⟨⟨by simp, by norm_num [npVarPop, npMean]⟩,
    c5_zero_std_flags_all [1, 1] 2 (by simp) (by norm_num [npVarPop, npMean])⟩

theorem map_range_getD (c : List ℚ) :
    (List.range c.length).map (fun s => c.getD s 0) = c := by
  apply List.ext_getElem
  · simp
  · intro i h1 h2
    simp [List.getD_eq_getElem?_getD, List.getElem?_eq_getElem h2]

theorem matCol_np2T (cols : List (List ℚ)) (n j : ℕ)
    (hn : ∀ c ∈ cols, c.length = n) (hj : j < cols.length) :
    matCol (np2T cols) j = cols[j] := by
  have hjlen : cols[j].length = n := hn _ (List.getElem_mem hj)
  have hh : (cols.headD []).length = n := by
    cases cols with
    | nil => exact absurd hj (by simp)
    | cons c0 cs => exact hn c0 (by simp)
  unfold matCol np2T
  rw [List.map_map, hh]
  apply List.ext_getElem
  · simpa using hjlen.symm
  · intro s h1 h2
    simp only [List.getElem_map, List.getElem_range, Function.comp_apply]
    rw [List.getD_eq_getElem?_getD, List.getElem?_map, List.getElem?_eq_getElem hj]
    simp [List.getD_eq_getElem?_getD, List.getElem?_eq_getElem h2]

/-- C4: `label_vals` returns the stored override matrix when one is
cached, and otherwise derives the matrix from the label table so that
column `j` equals the table column named by `label_names[j]`. -/
theorem c4_label_vals_columns (d : Dataset) (n j : ℕ)
    (hcols : ∀ k ∈ d.label_names, (d.data.get k).length = n)
    (hj : j < d.label_names.length) :
    (∀ m, d.cachedLabelVals = some m → d.label_vals = m) ∧
    (d.cachedLabelVals = none →
      matCol d.label_vals j = d.data.get (d.label_names.getD j "")) := by
  constructor
  · intro m hm
    simp [Dataset.label_vals, hm]
  · intro hm
    simp only [Dataset.label_vals, hm]
    have hj2 : j < (d.label_names.map (fun k => d.data.get k)).length := by
      simpa using hj
    rw [matCol_np2T (d.label_names.map (fun k => d.data.get k)) n j
      (by
        intro c hc
        obtain ⟨k, hk, rfl⟩ := List.mem_map.1 hc
        exact hcols k hk) hj2]
    rw [List.getElem_map]
    congr 1
    rw [List.getD_eq_getElem?_getD, List.getElem?_eq_getElem hj]
    rfl

theorem c4_label_vals_columns_witness :
    ((∀ k ∈ dsEx.label_names, (dsEx.data.get k).length = 2) ∧
      0 < dsEx.label_names.length) ∧
    ((∀ m, dsEx.cachedLabelVals = some m → dsEx.label_vals = m) ∧
     (dsEx.cachedLabelVals = none →
       matCol dsEx.label_vals 0 = dsEx.data.get (dsEx.label_names.getD 0 ""))) :=
  ⟨⟨by decide, by decide⟩, c4_label_vals_columns dsEx 2 0 (by decide) (by decide)⟩

/-- C9: `set_label_vals` followed by the `label_vals` property returns
exactly the stored matrix, for any dataset; `reset_label_vals` (which
`__init__` also performs) reverts `label_vals` to the matrix derived
from the table. -/
theorem c9_set_reset_roundtrip (d : Dataset) (m : List (List ℚ)) (t : Table)
    (snrs : List ℚ) (lams fluxes ivars : List (List ℚ))
    (names : List String) :
    (d.set_label_vals m).label_vals = m ∧
    (d.reset_label_vals).label_vals =
      np2T (d.label_names.map (fun k => d.data.get k)) ∧
    (Dataset.make t snrs lams fluxes ivars names).label_vals =
      np2T (names.map (fun k => (t.addColumn "SNRs" snrs).get k)) :=
  ⟨rfl, rfl, rfl⟩

/-- C1: the claim requires `choose_objects` to subset the label table
and all three spectral arrays; the source subsets the table, `fluxes`
and `ivars` but never `lams`, so on a 2-star dataset with mask
`[True, False]` the wavelength array keeps 2 rows while the other
three shrink to 1. -/
theorem c1_choose_objects_misses_lams :
    ((dsEx.choose_objects [true, false]).data.nrows = 1 ∧
     (dsEx.choose_objects [true, false]).fluxes.length = 1 ∧
     (dsEx.choose_objects [true, false]).ivars.length = 1) ∧
    (dsEx.choose_objects [true, false]).lams.length = 2 ∧
    (dsEx.choose_objects [true, false]).lams.length ≠
      (dsEx.choose_objects [true, false]).fluxes.length :=
  ⟨⟨rfl, rfl, rfl⟩, rfl, by decide⟩

/-- C10: for every dataset and boolean mask, `choose_objects` leaves
`lams` exactly as it was (value, hence row count); only the label
table, `fluxes` and `ivars` are subset by the mask. -/
theorem c10_choose_objects_frame (d : Dataset) (m : List Bool) :
    (d.choose_objects m).lams = d.lams ∧
    (d.choose_objects m).fluxes = maskSelect d.fluxes m ∧
    (d.choose_objects m).ivars = maskSelect d.ivars m ∧
    (d.choose_objects m).data = d.data.selectRows m ∧
    (d.choose_objects m).label_names = d.label_names ∧
    (d.choose_objects m).cachedLabelVals = d.cachedLabelVals :=
  ⟨rfl, rfl, rfl, rfl, rfl, rfl⟩

/-- C3, as stated, is false: `choose_labels` clears `label_names`
before validating, so after a failing call on `dsEx` (whose
`label_names` is `["a", "b"]`) the raised error does name the first
unresolved entry, but `label_names` is `[]`, not its pre-call value. -/
theorem c3_counterexample_not_atomic :
    (dsEx.choose_labels ["bogus"]).2 = some "bogus" ∧
    dsEx.label_names = ["a", "b"] ∧
    (dsEx.choose_labels ["bogus"]).1.label_names = [] ∧
    (dsEx.choose_labels ["bogus"]).1.label_names ≠ dsEx.label_names := by
  refine ⟨rfl, rfl, rfl, ?_⟩
  decide

/-- C3 amended: when every name before `k` resolves to a column and
`k` does not, `choose_labels` raises the error naming the resolved
form of `k`, and leaves `label_names` equal to the resolved prefix of
names before `k` — not the pre-call value (the replacement is not
all-or-nothing). -/
theorem c3_amended_partial_mutation (d : Dataset) (pre post : List String)
    (k : String)
    (hok : ∀ a ∈ pre, d.data.containsCol (d.data.resolveAlias a) = true)
    (hbad : d.data.containsCol (d.data.resolveAlias k) = false) :
    (d.choose_labels (pre ++ k :: post)).2 = some (d.data.resolveAlias k) ∧
    (d.choose_labels (pre ++ k :: post)).1.label_names =
      pre.map (fun a => d.data.resolveAlias a) := by
  suffices hloop : chooseLabelsLoop d.data (pre ++ k :: post) =
      (pre.map (fun a => d.data.resolveAlias a), some (d.data.resolveAlias k)) by
    simp [Dataset.choose_labels, hloop]
  induction pre with
  | nil => simp [chooseLabelsLoop, hbad]
  | cons a as ih =>
    have ha := hok a (by simp)
    have ihr := ih (fun x hx => hok x (by simp [hx]))
    simp [chooseLabelsLoop, ha, ihr]

theorem c3_amended_partial_mutation_witness :
    ((∀ a ∈ ["a"], dsEx.data.containsCol (dsEx.data.resolveAlias a) = true) ∧
      dsEx.data.containsCol (dsEx.data.resolveAlias "bogus") = false) ∧
    ((dsEx.choose_labels (["a"] ++ "bogus" :: [])).2 =
       some (dsEx.data.resolveAlias "bogus") ∧
     (dsEx.choose_labels (["a"] ++ "bogus" :: [])).1.label_names =
       ["a"].map (fun a => dsEx.data.resolveAlias a)) :=
  ⟨⟨by decide, by decide⟩,
    c3_amended_partial_mutation dsEx ["a"] [] "bogus" (by decide) (by decide)⟩

theorem maskSelect_zip_filter (ids : List String) (w : List Bool) :
    maskSelect ids w = specFlaggedIDs ids w := by
  induction ids generalizing w with
  | nil => cases w <;> simp [maskSelect, specFlaggedIDs]
  | cons a as ih =>
    cases w with
    | nil => simp [maskSelect, specFlaggedIDs]
    | cons b bs =>
      cases b
      · simpa [maskSelect, specFlaggedIDs] using ih bs
      · simpa [maskSelect, specFlaggedIDs] using ih bs

theorem flaggedCount_eq_length (ids : List String) (w : List Bool)
    (h : ids.length = w.length) :
    flaggedCount w = (specFlaggedIDs ids w).length := by
  induction w generalizing ids with
  | nil => simp [flaggedCount, specFlaggedIDs]
  | cons b bs ih =>
    cases ids with
    | nil => simp at h
    | cons a as =>
      have h2 : as.length = bs.length := by simpa using h
      cases b
      · simpa [flaggedCount, specFlaggedIDs] using ih as h2
      · simpa [flaggedCount, specFlaggedIDs, Nat.add_comm] using ih as h2

/-- C6: for one label, the written file is exactly the flagged stars'
IDs (numpy-masked from `test.IDs`, keeping row order), one per line
with no header, and the printed count equals the number of flagged
stars. -/
theorem c6_flagged_output (names ids : List String) (w : List Bool) (i : ℕ)
    (h : ids.length = w.length) :
    maskSelect ids w = specFlaggedIDs ids w ∧
    (postPerLabel names ids w i).content =
      String.join ((specFlaggedIDs ids w).map (fun s => s ++ "\x0a")) ∧
    (postPerLabel names ids w i).summaryCount = (specFlaggedIDs ids w).length := by
  refine ⟨maskSelect_zip_filter ids w, ?_, flaggedCount_eq_length ids w h⟩
  show fileContent ids w = _
  rw [fileContent, maskSelect_zip_filter]
  rfl

theorem c6_flagged_output_witness :
    (["s1", "s2", "s3"].length = [true, false, true].length) ∧
    (maskSelect ["s1", "s2", "s3"] [true, false, true] =
       specFlaggedIDs ["s1", "s2", "s3"] [true, false, true] ∧
     (postPerLabel ["a", "b"] ["s1", "s2", "s3"] [true, false, true] 0).content =
       String.join ((specFlaggedIDs ["s1", "s2", "s3"] [true, false, true]).map
         (fun s => s ++ "\x0a")) ∧
     (postPerLabel ["a", "b"] ["s1", "s2", "s3"] [true, false, true] 0).summaryCount =
       (specFlaggedIDs ["s1", "s2", "s3"] [true, false, true]).length) :=
  ⟨by decide, c6_flagged_output ["a", "b"] ["s1", "s2", "s3"]
    [true, false, true] 0 (by decide)⟩

/-- C7, as stated, is false: the source has no alignment check and no
`UnalignedComparisonError`; with reference column `[1, 2]` and test
column `[5]` (different lengths) the residual `cannon - orig`
broadcasts and the comparison section produces output
`(low, high, residuals) = (1, 5, [4, 3])` instead of raising. -/
theorem c7_counterexample_broadcast_output :
    ([1, 2] : List ℚ).length ≠ ([5] : List ℚ).length ∧
    comparisonReport [1, 2] [5] = some (1, 5, [4, 3]) := by
  constructor
  · decide
  · simp [comparisonReport, npBroadcastSub, List.min?, List.max?]
    norm_num [min_def, max_def]

/-- C7 amended: the comparison section performs no alignment
validation of its own; when the two columns' lengths differ and
neither is 1, the elementwise residual fails with a generic library
shape error (no dedicated `UnalignedComparisonError`), producing no
report. -/
theorem c7_amended_no_alignment_check (orig cannon : List ℚ)
    (hne : cannon.length ≠ orig.length) (ho : orig.length ≠ 1)
    (hc : cannon.length ≠ 1) :
    comparisonReport orig cannon = none := by
  have hb : npBroadcastSub cannon orig = none := by
    unfold npBroadcastSub
    rw [if_neg hne, if_neg ho, if_neg hc]
  unfold comparisonReport
  rw [hb]

theorem c7_amended_no_alignment_check_witness :
    (([4, 5] : List ℚ).length ≠ ([1, 2, 3] : List ℚ).length ∧
     ([1, 2, 3] : List ℚ).length ≠ 1 ∧ ([4, 5] : List ℚ).length ≠ 1) ∧
    comparisonReport [1, 2, 3] [4, 5] = none :=
  ⟨⟨by decide, by decide, by decide⟩,
    c7_amended_no_alignment_check [1, 2, 3] [4, 5] (by decide) (by decide)
      (by decide)⟩

/-- C8: the flagged-star file name is built from the positional label
index (`"flagged_stars_%s.txt" % i`) — it does not depend on the label
names at all — while the printed per-label summary uses the label
name. -/
theorem c8_filename_from_index (names names2 ids : List String)
    (w : List Bool) (i : ℕ) :
    (postPerLabel names ids w i).filename =
      "flagged_stars_" ++ toString i ++ ".txt" ∧
    (postPerLabel names ids w i).filename =
      (postPerLabel names2 ids w i).filename ∧
    (postPerLabel names ids w i).summaryLabel =
      "Reference label " ++ names.getD i "" :=
  ⟨rfl, rfl, rfl⟩

end Cannon
